import Mathlib

/-!
Verification of the modulino-rs register-access layer and VL53L4CD
distance-ranging driver (`src/distance.rs`, `src/i2c_device.rs`).

The I2C bus is modelled as an abstract record of three transaction
primitives (addressed write, addressed read, combined write-then-read with
repeated start), each threading an explicit bus state and failing with a
transport error that carries the state at the moment of failure.  The
driver functions are shallow embeddings of the Rust source, byte for byte:
register addresses and values are serialized exactly as the source does
(`u16::to_be_bytes`, `u32::to_be_bytes`), and the single `f32` computation
in `set_inter_measurement` is modelled by an exact IEEE-754 binary32
round-to-nearest-even evaluator over naturals.
-/

namespace Modulino

/-- One addressed I2C bus transaction, as issued by the drivers. -/
inductive I2cOp where
  | write (addr : Nat) (data : List Nat)
  | read (addr : Nat) (len : Nat)
  | writeRead (addr : Nat) (wdata : List Nat) (rlen : Nat)
deriving DecidableEq

/-- An I2C bus model: the three `embedded_hal::i2c::I2c` primitives the
drivers use, over an explicit bus state `σ`.  A failing transaction
returns a transport error code together with the bus state at the point
of failure (the Rust driver propagates the error value `E` opaquely). -/
structure Bus (σ : Type) where
  busWrite : σ → Nat → List Nat → Except (Nat × σ) σ
  busRead : σ → Nat → Nat → Except (Nat × σ) (σ × List Nat)
  busWriteRead : σ → Nat → List Nat → Nat → Except (Nat × σ) (σ × List Nat)

/-- `u16::to_be_bytes`: big-endian byte pair of a 16-bit value. -/
def u16be (v : Nat) : List Nat :=
  [v / 256 % 256, v % 256]

/-- `u32::to_be_bytes`: big-endian byte quadruple of a 32-bit value. -/
def u32be (v : Nat) : List Nat :=
  [v / 16777216 % 256, v / 65536 % 256, v / 256 % 256, v % 256]

/-- `Distance::write_register` (distance.rs:70): payload
`[reg_hi, reg_lo, value]`. -/
def write_register {σ : Type} (B : Bus σ) (addr : Nat) (s : σ) (reg value : Nat) :
    Except (Nat × σ) σ :=
  B.busWrite s addr (u16be reg ++ [value])

/-- `Distance::write_register_16` (distance.rs:78): payload
`[reg_hi, reg_lo, val_hi, val_lo]`. -/
def write_register_16 {σ : Type} (B : Bus σ) (addr : Nat) (s : σ) (reg value : Nat) :
    Except (Nat × σ) σ :=
  B.busWrite s addr (u16be reg ++ u16be value)

/-- `Distance::write_register_32` (distance.rs:87): payload
`[reg_hi, reg_lo, val0, val1, val2, val3]` big-endian. -/
def write_register_32 {σ : Type} (B : Bus σ) (addr : Nat) (s : σ) (reg value : Nat) :
    Except (Nat × σ) σ :=
  B.busWrite s addr (u16be reg ++ u32be value)

/-- `Distance::read_register` (distance.rs:96): a separate addressed write
of the register bytes followed by a separate addressed 1-byte read. -/
def read_register {σ : Type} (B : Bus σ) (addr : Nat) (s : σ) (reg : Nat) :
    Except (Nat × σ) (σ × Nat) := do
  let s ← B.busWrite s addr (u16be reg)
  let (s, buf) ← B.busRead s addr 1
  pure (s, buf.getD 0 0)

/-- `Distance::read_register_16` (distance.rs:106): a separate addressed
write of the register bytes followed by a separate addressed 2-byte read;
result decoded with `u16::from_be_bytes`. -/
def read_register_16 {σ : Type} (B : Bus σ) (addr : Nat) (s : σ) (reg : Nat) :
    Except (Nat × σ) (σ × Nat) := do
  let s ← B.busWrite s addr (u16be reg)
  let (s, buf) ← B.busRead s addr 2
  pure (s, buf.getD 0 0 * 256 + buf.getD 1 0)

/-- `Distance::set_timing_budget` (distance.rs:129): preset register pair
for the common budgets, default 20 ms pair, written to range-config A
(0x005E) then range-config B (0x0061). -/
def set_timing_budget {σ : Type} (B : Bus σ) (addr : Nat) (s : σ) (budget_ms : Nat) :
    Except (Nat × σ) σ := do
  let p : Nat × Nat :=
    if budget_ms = 10 then (0x0001, 0x0001)
    else if budget_ms = 15 then (0x0002, 0x0002)
    else if budget_ms = 20 then (0x0005, 0x0005)
    else if budget_ms = 33 then (0x000B, 0x000B)
    else if budget_ms = 50 then (0x0013, 0x0013)
    else if budget_ms = 100 then (0x0029, 0x0029)
    else if budget_ms = 200 then (0x0055, 0x0055)
    else if budget_ms = 500 then (0x00D6, 0x00D6)
    else (0x0005, 0x0005)
  let s ← write_register_16 B addr s 0x005E p.1
  write_register_16 B addr s 0x0061 p.2

/-- Normalization loop of the binary32 rounding model: scales the fraction
`n / d` (tracking the binary exponent `e`) until `2^23 ≤ n/d < 2^24`.
Fuel-bounded; 300 steps cover every magnitude arising here. -/
def f32norm : Nat → Nat → Nat → Int → Nat × Nat × Int
  | 0, n, d, e => (n, d, e)
  | fuel + 1, n, d, e =>
    if n < 8388608 * d then f32norm fuel (2 * n) d (e - 1)
    else if 16777216 * d ≤ n then f32norm fuel n (2 * d) (e + 1)
    else (n, d, e)

/-- Round the nonnegative rational `n / d` to the nearest IEEE-754
binary32 value (ties to even), returned as mantissa/exponent with
`value = m * 2 ^ e` and `2^23 ≤ m < 2^24` (or `(0, 0)` for zero).  All
values reached in this development are in the normal range. -/
def f32rnd (n d : Nat) : Nat × Int :=
  if n = 0 then (0, 0) else
    let w := f32norm 300 n d 0
    let q := w.1 / w.2.1
    let r := w.1 % w.2.1
    let m :=
      if 2 * r < w.2.1 then q
      else if w.2.1 < 2 * r then q + 1
      else if q % 2 = 0 then q else q + 1
    if m = 16777216 then (8388608, w.2.2 + 1) else (m, w.2.2)

/-- Express a binary32 mantissa/exponent pair as a fraction of naturals. -/
def f32frac (me : Nat × Int) : Nat × Nat :=
  if 0 ≤ me.2 then (me.1 * 2 ^ me.2.toNat, 1) else (me.1, 2 ^ (-me.2).toNat)

/-- The `f32` computation of `Distance::set_inter_measurement`
(distance.rs:159): `(period_ms as f32 * osc_freq as f32 / 1000.0) as u32`
with `osc_freq = 64000`, i.e. convert `period_ms` to binary32, multiply by
the exact constant 64000 (rounding), divide by the exact constant 1000
(rounding), then truncate toward zero saturating at `u32::MAX`. -/
def clock_pll (period_ms : Nat) : Nat :=
  let a := f32frac (f32rnd period_ms 1)
  let b := f32frac (f32rnd (a.1 * 64000) a.2)
  let c := f32rnd b.1 (b.2 * 1000)
  let v := if 0 ≤ c.2 then c.1 * 2 ^ c.2.toNat else c.1 / 2 ^ (-c.2).toNat
  min v 4294967295

/-- `Distance::set_inter_measurement` (distance.rs:157): one 32-bit write
of the converted tick count to the inter-measurement register 0x006C. -/
def set_inter_measurement {σ : Type} (B : Bus σ) (addr : Nat) (s : σ) (period_ms : Nat) :
    Except (Nat × σ) σ :=
  write_register_32 B addr s 0x006C (clock_pll period_ms)

/-- `Distance::init` (distance.rs:116): set timing budget 20 ms, then
inter-measurement period 0 (continuous). -/
def init {σ : Type} (B : Bus σ) (addr : Nat) (s : σ) : Except (Nat × σ) σ := do
  let s ← set_timing_budget B addr s 20
  set_inter_measurement B addr s 0

/-- `Distance::start_ranging` (distance.rs:165). -/
def start_ranging {σ : Type} (B : Bus σ) (addr : Nat) (s : σ) : Except (Nat × σ) σ :=
  write_register B addr s 0x0087 0x40

/-- `Distance::stop_ranging` (distance.rs:171). -/
def stop_ranging {σ : Type} (B : Bus σ) (addr : Nat) (s : σ) : Except (Nat × σ) σ :=
  write_register B addr s 0x0087 0x00

/-- `Distance::data_ready` (distance.rs:177): polarity is bit 4 of the
GPIO mux-control register 0x0030 shifted to bit 0, status is bit 0 of the
GPIO status register 0x0031; ready when they differ. -/
def data_ready {σ : Type} (B : Bus σ) (addr : Nat) (s : σ) :
    Except (Nat × σ) (σ × Bool) := do
  let (s, pv) ← read_register B addr s 0x0030
  let polarity := (pv &&& 0x10) >>> 4
  let (s, sv) ← read_register B addr s 0x0031
  let status := sv &&& 0x01
  pure (s, status != polarity)

/-- `Distance::clear_interrupt` (distance.rs:184): write 0x01 to the
interrupt-clear register 0x0086. -/
def clear_interrupt {σ : Type} (B : Bus σ) (addr : Nat) (s : σ) : Except (Nat × σ) σ :=
  write_register B addr s 0x0086 0x01

/-- `Distance::read_distance` (distance.rs:192): read range status (mask
low 5 bits), read the 16-bit range value, clear the interrupt, then
return the value only for status 0 or 4. -/
def read_distance {σ : Type} (B : Bus σ) (addr : Nat) (s : σ) :
    Except (Nat × σ) (σ × Option Nat) := do
  let (s, st) ← read_register B addr s 0x0089
  let range_status := st &&& 0x1F
  let (s, distance) ← read_register_16 B addr s 0x0096
  let s ← clear_interrupt B addr s
  if range_status = 0 ∨ range_status = 4 then pure (s, some distance)
  else pure (s, none)

/-- `Distance::read_distance_blocking` (distance.rs:215), fuel-indexed:
the Rust source is `loop { if self.data_ready()? { break; } }` followed by
a recursive retry on an invalid or zero reading.  One unit of fuel is
spent per poll of `data_ready`; `none` means the loop was still running
after the given number of iterations. -/
def read_distance_blocking {σ : Type} (B : Bus σ) (addr : Nat) :
    Nat → σ → Option (Except (Nat × σ) (σ × Nat))
  | 0, _ => none
  | fuel + 1, s =>
    match data_ready B addr s with
    | .error e => some (.error e)
    | .ok (s, ready) =>
      if ready then
        match read_distance B addr s with
        | .error e => some (.error e)
        | .ok (s, some d) =>
          if 0 < d then some (.ok (s, d))
          else read_distance_blocking B addr fuel s
        | .ok (s, none) => read_distance_blocking B addr fuel s
      else read_distance_blocking B addr fuel s

namespace I2cDevice

/-- `I2cDevice::write_reg` (i2c_device.rs:41): payload `[reg, value]`. -/
def write_reg {σ : Type} (B : Bus σ) (addr : Nat) (s : σ) (reg value : Nat) :
    Except (Nat × σ) σ :=
  B.busWrite s addr [reg, value]

/-- `I2cDevice::read_reg` (i2c_device.rs:46): one combined repeated-start
write-then-read transaction of `[reg]` / 1 byte. -/
def read_reg {σ : Type} (B : Bus σ) (addr : Nat) (s : σ) (reg : Nat) :
    Except (Nat × σ) (σ × Nat) := do
  let (s, buf) ← B.busWriteRead s addr [reg] 1
  pure (s, buf.getD 0 0)

/-- `I2cDevice::write_reg16_u16` (i2c_device.rs:64): payload
`[reg_hi, reg_lo, val_hi, val_lo]`. -/
def write_reg16_u16 {σ : Type} (B : Bus σ) (addr : Nat) (s : σ) (reg value : Nat) :
    Except (Nat × σ) σ :=
  B.busWrite s addr (u16be reg ++ u16be value)

/-- `I2cDevice::read_reg16_u8` (i2c_device.rs:85): one combined
repeated-start write-then-read transaction of the register bytes / 1 byte. -/
def read_reg16_u8 {σ : Type} (B : Bus σ) (addr : Nat) (s : σ) (reg : Nat) :
    Except (Nat × σ) (σ × Nat) := do
  let (s, buf) ← B.busWriteRead s addr (u16be reg) 1
  pure (s, buf.getD 0 0)

/-- `I2cDevice::read_reg16_u16` (i2c_device.rs:96): one combined
repeated-start write-then-read transaction of the register bytes /
2 bytes, decoded with `u16::from_be_bytes`. -/
def read_reg16_u16 {σ : Type} (B : Bus σ) (addr : Nat) (s : σ) (reg : Nat) :
    Except (Nat × σ) (σ × Nat) := do
  let (s, buf) ← B.busWriteRead s addr (u16be reg) 2
  pure (s, buf.getD 0 0 * 256 + buf.getD 1 0)

end I2cDevice

/-- State of the simulated register-map bus: a byte of memory per 16-bit
register address, the device's current register pointer, a count of write
transactions performed, and the transaction log. -/
structure MemState where
  mem : Nat → Nat
  ptr : Nat
  wcount : Nat
  log : List I2cOp

/-- Store a list of bytes at ascending addresses. -/
def storeBytes (mem : Nat → Nat) : Nat → List Nat → (Nat → Nat)
  | _, [] => mem
  | p, b :: bs => storeBytes (fun a => if a = p then b else mem a) (p + 1) bs

/-- Fetch `n` bytes at ascending addresses. -/
def fetchBytes (mem : Nat → Nat) (p n : Nat) : List Nat :=
  (List.range n).map fun i => mem (p + i)

/-- The 16-bit register address encoded big-endian in the first two bytes
of a write payload. -/
def regOf (data : List Nat) : Nat :=
  data.getD 0 0 * 256 + data.getD 1 0

/-- Register-map bus that accepts every transaction except that the write
transaction with index `failAt` (counting from 0) fails with transport
error code 7.  A write payload's first two bytes set the register
pointer; remaining bytes are stored at ascending addresses; reads return
memory at the pointer. -/
def memBusFail (failAt : Option Nat) : Bus MemState where
  busWrite := fun st a data =>
    if failAt = some st.wcount then .error (7, st)
    else .ok { mem := storeBytes st.mem (regOf data) (data.drop 2),
               ptr := regOf data,
               wcount := st.wcount + 1,
               log := st.log ++ [.write a data] }
  busRead := fun st a n =>
    .ok ({ st with ptr := st.ptr + n, log := st.log ++ [.read a n] },
         fetchBytes st.mem st.ptr n)
  busWriteRead := fun st a w n =>
    .ok ({ st with ptr := regOf w + n, log := st.log ++ [.writeRead a w n] },
         fetchBytes st.mem (regOf w) n)

/-- Register-map bus that never fails. -/
def memBus : Bus MemState := memBusFail none

/-- All-zero register file. -/
def zeros : Nat → Nat := fun _ => 0

/-- Initial bus state over a given register file. -/
def st0 (mem : Nat → Nat) : MemState :=
  { mem := mem, ptr := 0, wcount := 0, log := [] }

/-- Minimal register-map bus whose state is just the register pointer:
writes are accepted and only move the pointer, reads return the fixed
register file. -/
def ptrBus (mem : Nat → Nat) : Bus Nat where
  busWrite := fun _ _ data => .ok (regOf data)
  busRead := fun p _ n => .ok (p + n, fetchBytes mem p n)
  busWriteRead := fun _ _ w n => .ok (regOf w + n, fetchBytes mem (regOf w) n)

/-- Payloads of the plain write transactions in a log. -/
def writePayloads (log : List I2cOp) : List (List Nat) :=
  log.filterMap fun op =>
    match op with
    | .write _ d => some d
    | _ => none

/-- Transaction log of a successful driver call that returns only the bus
state. -/
def okLog : Except (Nat × MemState) MemState → Option (List I2cOp)
  | .ok st => some st.log
  | .error _ => none

/-- Result value and transaction log of a successful driver call. -/
def okValLog {α : Type} : Except (Nat × MemState) (MemState × α) → Option (α × List I2cOp)
  | .ok p => some (p.2, p.1.log)
  | .error _ => none

/-- Result value of a successful driver call. -/
def okVal {α : Type} : Except (Nat × MemState) (MemState × α) → Option α
  | .ok p => some p.2
  | .error _ => none

/-- Transport error code and transaction log at the point of failure of a
failed driver call. -/
def errLog : Except (Nat × MemState) MemState → Option (Nat × List I2cOp)
  | .error p => some (p.1, p.2.log)
  | .ok _ => none

/-- Register file for the data-ready scenarios: polarity byte `pb` in the
GPIO mux-control register 0x0030, status byte `sb` in the GPIO status
register 0x0031. -/
def mem2 (pb sb : Nat) : Nat → Nat := fun a =>
  if a = 0x30 then pb else if a = 0x31 then sb else 0

/-- Register file for end-to-end scenario A: range status 0x04, range
value bytes 0x01, 0xF4 (500 mm). -/
def mem3 : Nat → Nat := fun a =>
  if a = 0x89 then 0x04 else if a = 0x96 then 0x01 else if a = 0x97 then 0xF4 else 0

/-- Register file with an arbitrary range-status byte and range value
bytes 0x01, 0xF4 (500 mm). -/
def mem10 (st : Nat) : Nat → Nat := fun a =>
  if a = 0x89 then st else if a = 0x96 then 0x01 else if a = 0x97 then 0xF4 else 0

/-- The three write transactions `Distance::init` issues on a fault-free
bus: timing-budget pair 0x0005 to range-config A and B, then
inter-measurement tick count 0 to register 0x006C. -/
def initLog : List I2cOp :=
  [.write 0x29 [0x00, 0x5E, 0x00, 0x05],
   .write 0x29 [0x00, 0x61, 0x00, 0x05],
   .write 0x29 [0x00, 0x6C, 0x00, 0x00, 0x00, 0x00]]

/-- The five transactions of one `read_distance` call: status read, range
read, interrupt-clear write. -/
def readDistanceLog : List I2cOp :=
  [.write 0x29 [0x00, 0x89], .read 0x29 1,
   .write 0x29 [0x00, 0x96], .read 0x29 2,
   .write 0x29 [0x00, 0x86, 0x01]]

/-- The timing-budget table exactly as the spec states it: milliseconds to
the 16-bit value written identically to range-config A and range-config B. -/
def specTimingValue (b : Nat) : Nat :=
  if b = 10 then 0x0001
  else if b = 15 then 0x0002
  else if b = 20 then 0x0005
  else if b = 33 then 0x000B
  else if b = 50 then 0x0013
  else if b = 100 then 0x0029
  else if b = 200 then 0x0055
  else if b = 500 then 0x00D6
  else 0x0005

/-- Balanced checker: `allPow f d lo = true` iff `f` holds on the `2^d`
consecutive inputs starting at `lo`.  Logarithmic nesting depth keeps
kernel evaluation of bounded universal statements shallow. -/
def allPow (f : Nat → Bool) : Nat → Nat → Bool
  | 0, lo => f lo
  | d + 1, lo => allPow f d lo && allPow f d (lo + 2 ^ d)

theorem allPow_true (f : Nat → Bool) :
    ∀ (d lo : Nat), allPow f d lo = true → ∀ i, i < 2 ^ d → f (lo + i) = true := by
  intro d
  induction d with
  | zero =>
    intro lo h i hi
    interval_cases i
    simpa [allPow] using h
  | succ d ih =>
    intro lo h i hi
    rw [allPow, Bool.and_eq_true] at h
    by_cases hc : i < 2 ^ d
    · exact ih lo h.1 i hc
    · have h2 : i - 2 ^ d < 2 ^ d := by
        have : 2 ^ (d + 1) = 2 ^ d + 2 ^ d := by ring
        omega
      have h3 := ih (lo + 2 ^ d) h.2 (i - 2 ^ d) h2
      have he : lo + 2 ^ d + (i - 2 ^ d) = lo + i := by omega
      rwa [he] at h3

set_option maxRecDepth 4000 in
theorem clock_pll_small : ∀ p : Nat, p < 2048 → clock_pll p = 64 * p := by
  have h := allPow_true (fun p => clock_pll p == 64 * p) 11 0 (by decide)
  intro p hp
  simpa using h p hp

/-- On the pointer bus over the polarity/status register file,
`data_ready` performs its two register reads and returns exactly the
comparison the source computes. -/
theorem data_ready_ptrBus (pb sb s : Nat) :
    data_ready (ptrBus (mem2 pb sb)) 0x29 s =
      .ok (0x32, (sb &&& 0x01) != ((pb &&& 0x10) >>> 4)) := rfl

/-- Masking with 16 and shifting right by 4 extracts bit 4. -/
theorem and_sixteen_shift (n : Nat) : (n &&& 16) >>> 4 = n / 16 % 2 := by
  have h : n &&& 16 = (n.testBit 4).toNat * 16 := by
    simpa using Nat.and_two_pow n 4
  rw [h, Nat.shiftRight_eq_div_pow, Nat.testBit_to_div_mod]
  norm_num
  by_cases hm : n / 16 % 2 = 1
  · simp [hm]
  · have hm0 : n / 16 % 2 = 0 := by omega
    simp [hm0]

/-- With an all-zero register file the device never reports data ready
(status bit and polarity bit agree), so the `read_distance_blocking` poll
loop is still running after any number of iterations. -/
theorem blocking_never_ready :
    ∀ (n s : Nat), read_distance_blocking (ptrBus zeros) 0x29 n s = none := by
  intro n
  induction n with
  | zero => intro s; rfl
  | succ n ih => intro s; exact ih 0x32

/-- Claim C1: for every `budget_ms`, `set_timing_budget` issues exactly two
register writes carrying the documented 16-bit pair value — the spec's
table value (default the 20 ms pair 0x0005) to range-config A (0x005E)
and the same value to range-config B (0x0061). -/
theorem timing_budget_table_writes (b : Nat) :
    okLog (set_timing_budget memBus 0x29 (st0 zeros) b) =
      some [.write 0x29 ([0x00, 0x5E] ++ u16be (specTimingValue b)),
            .write 0x29 ([0x00, 0x61] ++ u16be (specTimingValue b))] := by
  by_cases h1 : b = 10
  · subst h1; decide
  by_cases h2 : b = 15
  · subst h2; decide
  by_cases h3 : b = 20
  · subst h3; decide
  by_cases h4 : b = 33
  · subst h4; decide
  by_cases h5 : b = 50
  · subst h5; decide
  by_cases h6 : b = 100
  · subst h6; decide
  by_cases h7 : b = 200
  · subst h7; decide
  by_cases h8 : b = 500
  · subst h8; decide
  simp only [set_timing_budget, specTimingValue, if_neg h1, if_neg h2, if_neg h3, if_neg h4,
    if_neg h5, if_neg h6, if_neg h7, if_neg h8]
  decide

/-- Claim C2: for every pair of bytes returned for the GPIO mux-control
register 0x0030 and the GPIO status register 0x0031, `data_ready` returns
`Ok(true)` exactly when the low bit of the status byte differs from bit 4
of the polarity byte, and `Ok(false)` otherwise. -/
theorem data_ready_iff_bit_mismatch : ∀ pb, pb < 256 → ∀ sb, sb < 256 →
    (data_ready (ptrBus (mem2 pb sb)) 0x29 0 = .ok (0x32, true) ↔
      sb % 2 ≠ pb / 16 % 2) := by
  intro pb _ sb _
  rw [data_ready_ptrBus]
  simp only [Except.ok.injEq, Prod.mk.injEq, bne_iff_ne, Nat.and_one_is_mod, and_sixteen_shift]
  simp

/-- Witness for claim C2, the spec's end-to-end scenario C: polarity
bit 4 = 1 and status bit 0 = 0 is reported as data ready. -/
theorem data_ready_scenario_c :
    data_ready (ptrBus (mem2 0x10 0x00)) 0x29 0 = .ok (0x32, true) :=
  (data_ready_iff_bit_mismatch 0x10 (by decide) 0x00 (by decide)).mpr (by decide)

/-- Claim C3: against a register-map bus holding range status 0x04 and
range value bytes 0x01, 0xF4, `read_distance` at address 0x29 succeeds
with measurement 500 and issues exactly one write with payload
`[0x00, 0x86, 0x01]` (value 0x01 to the interrupt-clear register 0x0086). -/
theorem scenario_a_read_distance :
    okValLog (read_distance memBus 0x29 (st0 mem3)) = some (some 500, readDistanceLog) ∧
    (writePayloads readDistanceLog).count [0x00, 0x86, 0x01] = 1 := by decide

/-- Claim C4, counterexample: the value `init` writes to the
inter-measurement register 0x006C is 0 — its third write is
`[0x00, 0x6C, 0x00, 0x00, 0x00, 0x00]` — and not the 50 ms tick count
3200 the claim requires. -/
theorem init_fifty_ms_refuted :
    okLog (init memBus 0x29 (st0 zeros)) = some initLog ∧
    [0x00, 0x6C, 0x00, 0x00, 0x00, 0x00] ≠ [0x00, 0x6C] ++ u32be (50 * 64000 / 1000) := by
  decide

/-- Claim C4 as amended: the initialization sequence sets the timing
budget to 20 ms (writing 0x0005 to both range-config registers) and sets
the inter-measurement period to 0, i.e. continuous ranging. -/
theorem init_default_params :
    okLog (init memBus 0x29 (st0 zeros)) = some initLog := by decide

/-- Claim C5, counterexample: `init` issues exactly three writes, not a
91-byte configuration blob, and none of its writes addresses the blob
base register 0x002D. -/
theorem init_config_blob_refuted :
    okLog (init memBus 0x29 (st0 zeros)) = some initLog ∧
    initLog.length = 3 ∧ initLog.length ≠ 91 ∧
    (writePayloads initLog).filter (fun d => regOf d == 0x2D) = [] := by decide

/-- Claim C5 as amended: initialization writes no configuration blob; it
issues exactly three register writes, and if the bus fails the k-th write
(k < 3) initialization aborts with the transport error having issued only
the k preceding writes. -/
theorem init_writes_and_abort :
    (okLog (init memBus 0x29 (st0 zeros)) = some initLog ∧ initLog.length = 3) ∧
    (∀ k, k < 3 →
      errLog (init (memBusFail (some k)) 0x29 (st0 zeros)) = some (7, initLog.take k)) := by
  refine ⟨⟨by decide, by decide⟩, ?_⟩
  intro k hk
  interval_cases k <;> decide

/-- Witness for claim C5: a bus that fails the second write makes `init`
abort with the transport error after issuing only the first write. -/
theorem init_abort_at_second_write :
    errLog (init (memBusFail (some 1)) 0x29 (st0 zeros)) = some (7, initLog.take 1) :=
  init_writes_and_abort.2 1 (by decide)

/-- Claim C6, counterexample: at `period_ms = 134219` the `f32`
computation in `set_inter_measurement` writes 8590017 to the
inter-measurement register, while `round(134219 × 64000 / 1000)`
is 8590016. -/
theorem inter_measurement_round_refuted :
    okLog (set_inter_measurement memBus 0x29 (st0 zeros) 134219) =
      some [.write 0x29 ([0x00, 0x6C] ++ u32be 8590017)] ∧
    8590017 ≠ 134219 * 64000 / 1000 := by decide

/-- Claim C6 as amended: `set_inter_measurement` issues a single write to
the inter-measurement register 0x006C; for every `period_ms < 2048` the
written value equals `round(period_ms × 64000 / 1000)` (which the natural
division computes exactly here), in particular zero for `period_ms = 0`. -/
theorem inter_measurement_small_periods (p : Nat) (hp : p < 2048) :
    okLog (set_inter_measurement memBus 0x29 (st0 zeros) p) =
      some [.write 0x29 ([0x00, 0x6C] ++ u32be (p * 64000 / 1000))] := by
  have h1 : clock_pll p = 64 * p := clock_pll_small p hp
  have h2 : p * 64000 / 1000 = 64 * p := by omega
  rw [h2]
  show okLog (write_register_32 memBus 0x29 (st0 zeros) 0x006C (clock_pll p)) = _
  rw [h1]
  rfl

/-- Witness for claim C6: a 50 ms period writes the tick count 3200. -/
theorem inter_measurement_fifty_ms :
    okLog (set_inter_measurement memBus 0x29 (st0 zeros) 50) =
      some [.write 0x29 ([0x00, 0x6C] ++ u32be (50 * 64000 / 1000))] :=
  inter_measurement_small_periods 50 (by decide)

/-- Claim C7, counterexample: after 1001 poll iterations on a device that
never reports data ready, `read_distance_blocking` is still running — the
loop is not bounded by 1000 attempts. -/
theorem blocking_exceeds_thousand :
    read_distance_blocking (ptrBus zeros) 0x29 1001 0 = none :=
  blocking_never_ready 1001 0

/-- Claim C7 as amended: the `read_distance_blocking` poll loop has no
iteration bound at all — on a device that never reports data ready it is
still running after every finite number of iterations. -/
theorem blocking_poll_unbounded :
    ∀ (n s : Nat), read_distance_blocking (ptrBus zeros) 0x29 n s = none :=
  blocking_never_ready

/-- Claim C8: `Distance::read_register` performs a separate addressed
write transaction followed by a separate addressed read transaction,
whereas `I2cDevice::read_reg16_u8` performs the single repeated-start
write-then-read transaction the claim (and the repository's own mock-bus
test) requires for every register read. -/
theorem register_read_transaction_shape :
    okValLog (read_register memBus 0x29 (st0 zeros) 0x0089) =
      some (0, [.write 0x29 [0x00, 0x89], .read 0x29 1]) ∧
    okValLog (I2cDevice.read_reg16_u8 memBus 0x29 (st0 zeros) 0x0089) =
      some (0, [.writeRead 0x29 [0x00, 0x89] 1]) := by decide

/-- Claim C9: over the register-map bus, writing any 16-bit value `v` to
any 16-bit register `r` via `write_reg16_u16` (payload
`[reg_hi, reg_lo, val_hi, val_lo]`) and reading it back via
`read_reg16_u16` yields exactly `v`. -/
theorem write_read_roundtrip_u16 : ∀ r v : Nat, r < 65536 → v < 65536 →
    okVal ((I2cDevice.write_reg16_u16 memBus 0x29 (st0 zeros) r v).bind
      (fun s => I2cDevice.read_reg16_u16 memBus 0x29 s r)) = some v := by
  intro r v hr hv
  have hreg : (r / 256 % 256) * 256 + r % 256 = r := by omega
  simp only [I2cDevice.write_reg16_u16, I2cDevice.read_reg16_u16, memBus, memBusFail,
    u16be, regOf, storeBytes, fetchBytes, okVal, st0, zeros, List.append_eq, List.cons_append,
    List.nil_append, List.getD_cons_zero, List.getD_cons_succ, List.drop_succ_cons,
    List.drop_zero, List.range_succ, List.map_append, List.map_cons, List.map_nil,
    Except.bind]
  simp only [hreg]
  simp
  omega

/-- Witness for claim C9: value 500 written to the final-range register
address 0x0096 reads back as 500. -/
theorem write_read_roundtrip_case :
    okVal ((I2cDevice.write_reg16_u16 memBus 0x29 (st0 zeros) 0x0096 500).bind
      (fun s => I2cDevice.read_reg16_u16 memBus 0x29 s 0x0096)) = some 500 :=
  write_read_roundtrip_u16 0x0096 500 (by decide) (by decide)

/-- Claim C10: for every range-status byte `s`, `read_distance` returns a
measurement exactly when `s &&& 0x1F` is 0 or 4 and `none` otherwise, and
in both cases it performs the same five transactions — status read, range
read, and the interrupt-clear write — so the interrupt is cleared even
for an invalid measurement. -/
theorem read_distance_filter : ∀ s, s < 256 →
    okValLog (read_distance memBus 0x29 (st0 (mem10 s))) =
      some ((if s &&& 0x1F = 0 ∨ s &&& 0x1F = 4 then some 500 else none),
        readDistanceLog) := by
  have h := allPow_true (fun s =>
    okValLog (read_distance memBus 0x29 (st0 (mem10 s))) ==
      some ((if s &&& 0x1F = 0 ∨ s &&& 0x1F = 4 then some 500 else none), readDistanceLog))
    8 0 (by decide)
  intro s hs
  simpa using h s hs

/-- Witness for claim C10: status byte 9 masks to 9, an invalid status,
so no measurement is returned, yet the interrupt-clear write is still the
final transaction of the call. -/
theorem read_distance_filter_invalid :
    okValLog (read_distance memBus 0x29 (st0 (mem10 9))) =
      some (none, readDistanceLog) := by
  have h := read_distance_filter 9 (by decide)
  simpa using h

end Modulino
